import Mathlib

/-!
Verification development for the railhub-directory repository.

The development shallow-embeds the parts of the code that the verified
properties speak about:

* `src/importer/src/parsers/excelParser.js` — record normalization
  (`normalizeState`, `normalizeWebsite`, `parseList`, `normalizeRecord`);
* the identical normalization helpers of the Commtrex CSV parser;
* `src/importer/src/index.js` — the per-file Excel import loop
  (`importFile`) and the Commtrex import loop, with the database modeled
  as an explicit value and SQL `WHERE` equality given its three-valued
  semantics (a NULL operand never matches);
* the geocoding queue (`geocodeNominatim`, `processAll`), with the
  network modeled as an oracle;
* `src/backend/src/routes/facilities.ts` — query-parameter validation,
  filter construction, ordering and pagination of `GET /api/facilities`,
  with the PostGIS and text-search primitives (`ST_DWithin`,
  `ST_Distance`, `@@`, `ts_rank`) taken as black-box parameters.

JavaScript strings are modeled as Lean `String`s; the case-mapping and
trimming primitives are modeled on the ASCII range, which covers every
character the embedded code distinguishes.
-/

deriving instance DecidableEq for Except

namespace RailHub

/-! ### JavaScript string primitives (ASCII range) -/

/-- ASCII whitespace removed by `String.prototype.trim`. -/
def isJsSpace (c : Char) : Bool :=
  c == ' ' || c == '\t' || c == '\n' || c == '\r'

/-- `String.prototype.trim`. -/
def jsTrim (s : String) : String :=
  ⟨((s.data.dropWhile isJsSpace).reverse.dropWhile isJsSpace).reverse⟩

/-- Lowercase ASCII letter. -/
def isLowerAlpha (c : Char) : Bool :=
  decide (97 ≤ c.toNat ∧ c.toNat ≤ 122)

/-- Uppercase ASCII letter. -/
def isUpperAlpha (c : Char) : Bool :=
  decide (65 ≤ c.toNat ∧ c.toNat ≤ 90)

/-- `String.prototype.toUpperCase` on one character (ASCII range). -/
def jsUpperChar (c : Char) : Char :=
  if isLowerAlpha c then Char.ofNat (c.toNat - 32) else c

/-- `String.prototype.toLowerCase` on one character (ASCII range). -/
def jsLowerChar (c : Char) : Char :=
  if isUpperAlpha c then Char.ofNat (c.toNat + 32) else c

/-- `String.prototype.toUpperCase` (ASCII range). -/
def jsToUpper (s : String) : String := ⟨s.data.map jsUpperChar⟩

/-- `String.prototype.toLowerCase` (ASCII range). -/
def jsToLower (s : String) : String := ⟨s.data.map jsLowerChar⟩

/-- JS truthiness of a string-valued field: `undefined`, `null` and `""`
are falsy, every other string is truthy. -/
def jsTruthy : Option String → Bool
  | none => false
  | some s => s != ""

/-- The JS idiom `x || null` applied to a string-valued field. -/
def jsOrNull (o : Option String) : Option String :=
  if jsTruthy o then o else none

/-- The JS idiom `a || b` on string-valued fields. -/
def jsOrStr (a b : Option String) : Option String :=
  if jsTruthy a then a else b

/-- `p` is an initial run of `l` (character-for-character). -/
def listLeads : List Char → List Char → Bool
  | [], _ => true
  | _ :: _, [] => false
  | a :: as, b :: bs => a == b && listLeads as bs

/-- `String.prototype.startsWith`. -/
def jsStartsWith (s p : String) : Bool := listLeads p.data s.data

/-- `p` occurs as a contiguous run inside `hay`. -/
def listHasRun : List Char → List Char → Bool
  | [], p => p.isEmpty
  | l@(_ :: t), p => listLeads p l || listHasRun t p

/-- Split a character list at every separator character (the semantics of
`String.prototype.split` with a single-character-class regular
expression: adjacent separators yield empty pieces). -/
def splitOnPred (p : Char → Bool) : List Char → List (List Char)
  | [] => [[]]
  | c :: cs =>
    if p c then [] :: splitOnPred p cs
    else
      match splitOnPred p cs with
      | [] => [[c]]
      | h :: t => (c :: h) :: t

/-- `String.prototype.split` with a character-class regular expression. -/
def jsSplit (s : String) (p : Char → Bool) : List String :=
  (splitOnPred p s.data).map (⟨·⟩)

/-- SQL `col = param` on nullable text: a NULL operand never matches. -/
def sqlEqOpt : Option String → Option String → Bool
  | some a, some b => a == b
  | _, _ => false

/-- Lexicographic order on character lists by code point (the order a
text column sorts in under byte collation). -/
def listLexLe : List Char → List Char → Bool
  | [], _ => true
  | _ :: _, [] => false
  | a :: as, b :: bs =>
    decide (a.toNat < b.toNat) || (a.toNat == b.toNat && listLexLe as bs)

/-- String comparison used by `ORDER BY name ASC`. -/
def strLe (s t : String) : Bool := listLexLe s.data t.data

/-- `listLexLe` is total. -/
theorem listLexLe_total : ∀ l m, listLexLe l m = true ∨ listLexLe m l = true := by
  intro l
  induction l with
  | nil => intro m; exact Or.inl rfl
  | cons a as ih =>
    intro m
    cases m with
    | nil => exact Or.inr rfl
    | cons b bs =>
      unfold listLexLe
      rcases Nat.lt_trichotomy a.toNat b.toNat with h | h | h
      · left
        simp [h]
      · rcases ih bs with hr | hr
        · left
          simp [h, hr]
        · right
          simp [h, hr]
      · right
        simp [h]

/-- `listLexLe` is transitive. -/
theorem listLexLe_trans :
    ∀ l m n, listLexLe l m = true → listLexLe m n = true → listLexLe l n = true := by
  intro l
  induction l with
  | nil => intro m n _ _; rfl
  | cons a as ih =>
    intro m n h1 h2
    cases m with
    | nil => exact absurd h1 (by simp [listLexLe])
    | cons b bs =>
      cases n with
      | nil => exact absurd h2 (by simp [listLexLe])
      | cons c cs =>
        unfold listLexLe at h1 h2 ⊢
        simp only [Bool.or_eq_true, Bool.and_eq_true, decide_eq_true_eq, beq_iff_eq] at h1 h2 ⊢
        rcases h1 with h1 | ⟨h1e, h1r⟩ <;> rcases h2 with h2 | ⟨h2e, h2r⟩
        · exact Or.inl (by omega)
        · exact Or.inl (by omega)
        · exact Or.inl (by omega)
        · exact Or.inr ⟨by omega, ih bs cs h1r h2r⟩

/-! ### `src/importer/src/parsers/excelParser.js` -/

/-- The fixed full-state-name lookup table of `normalizeState`. -/
def stateMap : List (String × String) := [
  ("ALABAMA", "AL"), ("ALASKA", "AK"), ("ARIZONA", "AZ"), ("ARKANSAS", "AR"),
  ("CALIFORNIA", "CA"), ("COLORADO", "CO"), ("CONNECTICUT", "CT"), ("DELAWARE", "DE"),
  ("FLORIDA", "FL"), ("GEORGIA", "GA"), ("HAWAII", "HI"), ("IDAHO", "ID"),
  ("ILLINOIS", "IL"), ("INDIANA", "IN"), ("IOWA", "IA"), ("KANSAS", "KS"),
  ("KENTUCKY", "KY"), ("LOUISIANA", "LA"), ("MAINE", "ME"), ("MARYLAND", "MD"),
  ("MASSACHUSETTS", "MA"), ("MICHIGAN", "MI"), ("MINNESOTA", "MN"), ("MISSISSIPPI", "MS"),
  ("MISSOURI", "MO"), ("MONTANA", "MT"), ("NEBRASKA", "NE"), ("NEVADA", "NV"),
  ("NEW HAMPSHIRE", "NH"), ("NEW JERSEY", "NJ"), ("NEW MEXICO", "NM"), ("NEW YORK", "NY"),
  ("NORTH CAROLINA", "NC"), ("NORTH DAKOTA", "ND"), ("OHIO", "OH"), ("OKLAHOMA", "OK"),
  ("OREGON", "OR"), ("PENNSYLVANIA", "PA"), ("RHODE ISLAND", "RI"), ("SOUTH CAROLINA", "SC"),
  ("SOUTH DAKOTA", "SD"), ("TENNESSEE", "TN"), ("TEXAS", "TX"), ("UTAH", "UT"),
  ("VERMONT", "VT"), ("VIRGINIA", "VA"), ("WASHINGTON", "WA"), ("WEST VIRGINIA", "WV"),
  ("WISCONSIN", "WI"), ("WYOMING", "WY"), ("WASHINGTON DC", "DC"), ("DISTRICT OF COLUMBIA", "DC")]

/-- The JS property read `stateMap[s]` (all keys are plain data keys). -/
def stateMapLookup (s : String) : Option String :=
  (stateMap.find? (fun p => p.1 == s)).map (·.2)

/-- The regular-expression test `/^[A-Z]{2}$/.test(s)`. -/
def isTwoUpperCode (s : String) : Bool :=
  match s.data with
  | [a, b] => isUpperAlpha a && isUpperAlpha b
  | _ => false

/-- `normalizeState` from `excelParser.js`: trim and uppercase the
input, keep an existing 2-letter code, translate a known full state
name, otherwise fall back to the first two characters; `null` for
falsy input. -/
def normalizeState (state : Option String) : Option String :=
  if !jsTruthy state then none
  else
    let s := jsToUpper (jsTrim (state.getD ""))
    if isTwoUpperCode s then some s
    else
      match stateMapLookup s with
      | some code => some code
      | none => some ⟨s.data.take 2⟩

/-- `normalizeWebsite` from `excelParser.js`. -/
def normalizeWebsite (url : Option String) : Option String :=
  if !jsTruthy url then none
  else
    let website := jsTrim (url.getD "")
    if website != "" && !jsStartsWith website "http" then
      some ("https://" ++ website)
    else some website

/-- `parseList` from `excelParser.js`: split on `,` or `;`, trim the
pieces, drop empty ones; `null` for falsy input. -/
def parseList (value : Option String) : Option (List String) :=
  if !jsTruthy value then none
  else
    some (((jsSplit (value.getD "") (fun c => c == ',' || c == ';')).map jsTrim).filter
      (fun s => s != ""))

/-- A raw spreadsheet row after header normalization: the fields the
source's `normalizeRecord` reads by name. -/
structure RawRow where
  name : Option String := none
  facility_name : Option String := none
  company_name : Option String := none
  address : Option String := none
  city : Option String := none
  state : Option String := none
  zip : Option String := none
  phone : Option String := none
  email : Option String := none
  website : Option String := none
  commodities : Option String := none
  railroads : Option String := none
  description : Option String := none
  type : Option String := none
  hours : Option String := none
  operator : Option String := none
  fleetSize : Option String := none
  ownership : Option String := none
deriving DecidableEq

/-- The normalized record shape produced by the Excel parser. -/
structure NormalizedRecord where
  name : Option String := none
  address : Option String := none
  city : Option String := none
  state : Option String := none
  zip : Option String := none
  phone : Option String := none
  email : Option String := none
  website : Option String := none
  commodities : Option (List String) := none
  railroads : Option (List String) := none
  description : Option String := none
  type : Option String := none
  hours : Option String := none
  operator : Option String := none
  fleetSize : Option String := none
  ownership : Option String := none
deriving DecidableEq

/-- `normalizeRecord` from `excelParser.js`.  The source's trailing
"keep any additional fields" loop copies only keys that are not already
present in the normalized object, so it never alters the fields modeled
here; the extra columns feed only the free-form attribute map. -/
def normalizeRecord (r : RawRow) : NormalizedRecord :=
  { name := jsOrStr r.name (jsOrStr r.facility_name r.company_name)
    address := r.address
    city := r.city
    state := normalizeState r.state
    zip := r.zip
    phone := r.phone
    email := r.email
    website := normalizeWebsite r.website
    commodities := parseList r.commodities
    railroads := parseList r.railroads
    description := r.description
    type := r.type
    hours := r.hours
    operator := r.operator
    fleetSize := r.fleetSize
    ownership := r.ownership }

/-! ### The Commtrex CSV parser's normalization helpers

`src/unnamed/part_002` repeats `normalizeState`, `normalizeWebsite` and
`parseList` verbatim; they are embedded a second time so that the
claimed identity of the two copies is a statement, not an assumption. -/

/-- `normalizeState` from the Commtrex parser (verbatim copy). -/
def commtrexNormalizeState (state : Option String) : Option String :=
  if !jsTruthy state then none
  else
    let s := jsToUpper (jsTrim (state.getD ""))
    if isTwoUpperCode s then some s
    else
      match stateMapLookup s with
      | some code => some code
      | none => some ⟨s.data.take 2⟩

/-- A record produced by `parseCommtrexFacilities` / `parseCommtrexStorage`
(the fields read by the import loop). -/
structure CommtrexRecord where
  name : Option String := none
  address : Option String := none
  city : Option String := none
  state : Option String := none
  zip : Option String := none
  phone : Option String := none
  email : Option String := none
  website : Option String := none
  sourceId : Option String := none
deriving DecidableEq

/-! ### `src/importer/src/index.js` — the import pipeline

The PostgreSQL state touched by the importer is modeled explicitly: a
list of categories and a list of facility rows.  A database error
raised by an `INSERT` is modeled by an oracle indexed by the number of
rows already inserted in the current file; `BEGIN`/`COMMIT`/`ROLLBACK`
become the choice between the transaction-local state and the original
one. -/

/-- A row of the `facilities` table (the columns the importer reads or
writes; the free-form `attributes` JSON column is not consulted by any
query modeled here). -/
structure Facility where
  name : String
  categoryId : Nat
  address : Option String := none
  city : Option String := none
  state : Option String := none
  zip : Option String := none
  phone : Option String := none
  email : Option String := none
  website : Option String := none
  source : String
  sourceId : Option String := none
deriving DecidableEq

/-- The database state: `categories (id, slug)` and `facilities`. -/
structure Db where
  categories : List (Nat × String)
  facilities : List Facility
deriving DecidableEq

/-- Exceptions surfaced by the import loop. -/
inductive ImpError where
  | categoryNotFound (slug : String)
  | dbError (k : Nat)
deriving DecidableEq

/-- Oracle describing which insert statement (counted per file) raises a
database error. -/
def InsertOracle := Nat → Bool

/-- An oracle under which every insert succeeds. -/
def noFailOracle : InsertOracle := fun _ => false

/-- `getCategoryId`: `SELECT id FROM categories WHERE slug = $1`, throwing
when no row matches. -/
def getCategoryId (db : Db) (slug : String) : Except ImpError Nat :=
  match db.categories.find? (fun c => c.2 == slug) with
  | some c => Except.ok c.1
  | none => Except.error (ImpError.categoryNotFound slug)

/-- The Excel path's duplicate SELECT:
`WHERE name = $1 AND city = $2 AND state = $3 AND category_id = $4`,
with SQL equality (a NULL parameter or column never matches). -/
def excelDupExists (facs : List Facility) (rec : NormalizedRecord) (categoryId : Nat) : Bool :=
  facs.any fun f =>
    sqlEqOpt (some f.name) rec.name && sqlEqOpt f.city rec.city &&
      sqlEqOpt f.state rec.state && f.categoryId == categoryId

/-- Loop state of one import run: transaction-local facilities plus the
`imported` and `skipped` counters. -/
structure LoopSt where
  facs : List Facility
  imported : Nat
  skipped : Nat
deriving DecidableEq

/-- The row built by the Excel path's INSERT (each contact field goes
through `x || null`; `source_id` is `basename:imported+skipped`). -/
def mkExcelFacility (rec : NormalizedRecord) (categoryId : Nat) (fileName : String)
    (seq : Nat) : Facility :=
  { name := rec.name.getD ""
    categoryId := categoryId
    address := jsOrNull rec.address
    city := jsOrNull rec.city
    state := jsOrNull rec.state
    zip := jsOrNull rec.zip
    phone := jsOrNull rec.phone
    email := jsOrNull rec.email
    website := jsOrNull rec.website
    source := "excel_import"
    sourceId := some (fileName ++ ":" ++ toString seq) }

/-- One iteration of `importFile`'s row loop: skip rows missing a truthy
name or state, skip duplicates unless `force`, otherwise insert (which
may raise a database error). -/
def excelStep (oracle : InsertOracle) (categoryId : Nat) (force : Bool) (fileName : String)
    (st : LoopSt) (rec : NormalizedRecord) : Except ImpError LoopSt :=
  if !jsTruthy rec.name || !jsTruthy rec.state then
    Except.ok { st with skipped := st.skipped + 1 }
  else if excelDupExists st.facs rec categoryId && !force then
    Except.ok { st with skipped := st.skipped + 1 }
  else if oracle st.imported then
    Except.error (ImpError.dbError st.imported)
  else
    Except.ok
      { facs := st.facs ++ [mkExcelFacility rec categoryId fileName (st.imported + st.skipped)]
        imported := st.imported + 1
        skipped := st.skipped }

/-- The transaction body of `importFile`: resolve the category (which
throws on an unknown slug), then run the row loop over the
transaction-local facilities. -/
def importFileBody (oracle : InsertOracle) (db : Db) (fileName : String) (categorySlug : String)
    (force : Bool) (records : List NormalizedRecord) : Except ImpError LoopSt := do
  let categoryId ← getCategoryId db categorySlug
  records.foldlM (excelStep oracle categoryId force fileName) ⟨db.facilities, 0, 0⟩

/-- `importFile`: run the body inside one transaction; on success COMMIT
the new facilities and return the counters, on any exception ROLLBACK
(the original `db` persists) and rethrow the error. -/
def importFile (oracle : InsertOracle) (db : Db) (fileName : String) (categorySlug : String)
    (force : Bool) (records : List NormalizedRecord) : Db × Except ImpError (Nat × Nat) :=
  match importFileBody oracle db fileName categorySlug force records with
  | Except.ok st => ({ db with facilities := st.facs }, Except.ok (st.imported, st.skipped))
  | Except.error e => (db, Except.error e)

/-- The Commtrex path's duplicate SELECT:
`WHERE name = $1 AND city = $2 AND state = $3 AND source = 'commtrex'` —
it keys on the source, not on the category. -/
def commtrexDupExists (facs : List Facility) (rec : CommtrexRecord) : Bool :=
  facs.any fun f =>
    sqlEqOpt (some f.name) rec.name && sqlEqOpt f.city rec.city &&
      sqlEqOpt f.state rec.state && f.source == "commtrex"

/-- The row built by the Commtrex INSERT. -/
def mkCommtrexFacility (rec : CommtrexRecord) (categoryId : Nat) : Facility :=
  { name := rec.name.getD ""
    categoryId := categoryId
    address := jsOrNull rec.address
    city := jsOrNull rec.city
    state := jsOrNull rec.state
    zip := jsOrNull rec.zip
    phone := jsOrNull rec.phone
    email := jsOrNull rec.email
    website := jsOrNull rec.website
    source := "commtrex"
    sourceId := jsOrNull rec.sourceId }

/-- One iteration of the Commtrex import loops (both the transloading
and the railcar-storage loop have this shape; only the category id
differs). -/
def commtrexStep (oracle : InsertOracle) (categoryId : Nat) (force : Bool)
    (st : LoopSt) (rec : CommtrexRecord) : Except ImpError LoopSt :=
  if commtrexDupExists st.facs rec && !force then
    Except.ok { st with skipped := st.skipped + 1 }
  else if oracle st.imported then
    Except.error (ImpError.dbError st.imported)
  else
    Except.ok
      { facs := st.facs ++ [mkCommtrexFacility rec categoryId]
        imported := st.imported + 1
        skipped := st.skipped }

/-- The Commtrex facilities loop over one parsed CSV. -/
def importCommtrexLoop (oracle : InsertOracle) (categoryId : Nat) (force : Bool)
    (facs : List Facility) (records : List CommtrexRecord) : Except ImpError LoopSt :=
  records.foldlM (commtrexStep oracle categoryId force) ⟨facs, 0, 0⟩

/-! ### The geocoding queue (`src/unnamed/part_000`) -/

/-- Behaviour of the external geocoding HTTP endpoint for one facility:
the fetch can reject (or return a non-ok HTTP status), return an empty
result list, or return a match. -/
inductive NetResult where
  | netError (msg : String)
  | noMatch
  | found (lat lng : Int)
deriving DecidableEq

/-- Network oracle, indexed by facility id. -/
def GeoOracle := Nat → NetResult

/-- A facility row as read by the geocoder. -/
structure GeoFacility where
  id : Nat
  name : String
  address : Option String := none
  city : Option String := none
  state : Option String := none
  zip : Option String := none
  location : Option (Int × Int) := none
  confidence : Option String := none
deriving DecidableEq

/-- A geocoding result. -/
structure GeoResult where
  lat : Int
  lng : Int
  confidence : String
  source : String
deriving DecidableEq

/-- The body of `geocodeNominatim` up to the `try`: fetch, check the
HTTP status, parse; raises on network failure. -/
def fetchNominatim (oracle : GeoOracle) (fid : Nat) : Except String (Option GeoResult) :=
  match oracle fid with
  | NetResult.netError msg => Except.error msg
  | NetResult.noMatch => Except.ok none
  | NetResult.found la ln => Except.ok (some ⟨la, ln, "medium", "nominatim"⟩)

/-- `geocodeNominatim`: the catch block logs the failure and returns
`null`, so the function never raises. -/
def geocodeNominatim (oracle : GeoOracle) (fid : Nat) : Option GeoResult :=
  match fetchNominatim oracle fid with
  | Except.ok r => r
  | Except.error _ => none

/-- `getUngeocoded`: facilities lacking a location but carrying address,
city and state, ordered by id, limited. -/
def getUngeocoded (db : List GeoFacility) (limit : Nat) : List GeoFacility :=
  (List.insertionSort (fun a b => a.id ≤ b.id)
    (db.filter fun f =>
      f.location.isNone && f.address.isSome && f.city.isSome && f.state.isSome)).take limit

/-- `saveLocation`: persist coordinates and confidence for one facility. -/
def saveLocation (db : List GeoFacility) (fid : Nat) (r : GeoResult) : List GeoFacility :=
  db.map fun f =>
    if f.id == fid then { f with location := some (r.lat, r.lng), confidence := some r.confidence }
    else f

/-- One iteration of `processAll`'s loop (provider `nominatim`): a
result is saved, no result counts as failed; the surrounding
try/catch keeps the loop going in every case. -/
def processStep (oracle : GeoOracle) (acc : List GeoFacility × Nat × Nat)
    (f : GeoFacility) : List GeoFacility × Nat × Nat :=
  match geocodeNominatim oracle f.id with
  | some r => (saveLocation acc.1 f.id r, acc.2.1 + 1, acc.2.2)
  | none => (acc.1, acc.2.1, acc.2.2 + 1)

/-- Counters returned by `processAll`. -/
structure GeoStats where
  processed : Nat
  succeeded : Nat
  failed : Nat
deriving DecidableEq

/-- `processAll`: geocode every ungeocoded facility in turn.  The
function is total — network failures are swallowed per record — so no
exception escapes the batch loop. -/
def processAll (oracle : GeoOracle) (db : List GeoFacility) (limit : Nat) :
    List GeoFacility × GeoStats :=
  let targets := getUngeocoded db limit
  let r := targets.foldl (processStep oracle) (db, 0, 0)
  (r.1, ⟨targets.length, r.2.1, r.2.2⟩)

/-! ### `src/backend/src/routes/facilities.ts`

The request handler is embedded as: zod validation of the raw query
parameters, then the SQL built by the handler, executed over an explicit
list of rows.  Numeric parameters are modeled as integers (every bound
in the schema and every input used below is integral).  The PostGIS and
full-text primitives are black-box parameters of the execution. -/

/-- The raw query string of `GET /api/facilities` after numeric
coercion: each parameter is either absent or a value. -/
structure RawFacilityQuery where
  q : Option String := none
  category : Option String := none
  state : Option String := none
  city : Option String := none
  lat : Option Int := none
  lng : Option Int := none
  radius : Option Int := none
  page : Option Int := none
  limit : Option Int := none
deriving DecidableEq

/-- The parsed query produced by `facilityQuerySchema`. -/
structure FacilityQuery where
  q : Option String := none
  category : Option String := none
  state : Option String := none
  city : Option String := none
  lat : Option Int := none
  lng : Option Int := none
  radius : Int := 50
  page : Int := 1
  limit : Int := 20
deriving DecidableEq

/-- An optional bounded numeric zod field (`.min(lo).max(hi).optional()`). -/
def optInRange (o : Option Int) (lo hi : Int) : Bool :=
  match o with
  | none => true
  | some v => decide (lo ≤ v ∧ v ≤ hi)

/-- The optional `z.string().length(2)` state field. -/
def stateLenOk : Option String → Bool
  | none => true
  | some s => s.length == 2

/-- `facilityQuerySchema.parse`: `none` is a `ZodError`.  `radius`,
`page` and `limit` carry zod defaults of 50, 1 and 20. -/
def parseFacilityQuery (r : RawFacilityQuery) : Option FacilityQuery :=
  if optInRange r.lat (-90) 90 && optInRange r.lng (-180) 180 && stateLenOk r.state &&
      decide (1 ≤ r.radius.getD 50 ∧ r.radius.getD 50 ≤ 500) &&
      decide (1 ≤ r.page.getD 1) &&
      decide (1 ≤ r.limit.getD 20 ∧ r.limit.getD 20 ≤ 100) then
    some { q := r.q, category := r.category, state := r.state, city := r.city,
           lat := r.lat, lng := r.lng, radius := r.radius.getD 50, page := r.page.getD 1,
           limit := r.limit.getD 20 }
  else none

/-- A row of the `facilities ⋈ categories` join read by the handler. -/
structure DbFacility where
  id : Nat
  name : String
  address : Option String := none
  city : Option String := none
  state : Option String := none
  zip : Option String := none
  categorySlug : String := ""
  isActive : Bool := true
  location : Option (Int × Int) := none
deriving DecidableEq

/-- JS truthiness of a numeric parameter: `undefined` and `0` are falsy
(this is the test `query.lat && query.lng` performs). -/
def jsTruthyNum : Option Int → Bool
  | none => false
  | some v => v != 0

/-- SQL `col ILIKE '%pat%'` on a nullable column. -/
def sqlIlikeContains (col : Option String) (pat : String) : Bool :=
  match col with
  | none => false
  | some h => listHasRun (jsToLower h).data (jsToLower pat).data

/-- The geographic center `(lat, lng)` of a query. -/
def center (q : FacilityQuery) : Int × Int := (q.lat.getD 0, q.lng.getD 0)

/-- The WHERE clause assembled by the handler (shared by the data query
and the count query).  `tsMatch` embeds
`search_vector @@ plainto_tsquery($q)`; `stDWithin loc c radius` embeds
`ST_DWithin(location, point(c), radius * 1609.344)`. -/
def rowMatches (tsMatch : String → DbFacility → Bool)
    (stDWithin : Int × Int → Int × Int → Int → Bool)
    (q : FacilityQuery) (f : DbFacility) : Bool :=
  f.isActive &&
    (if jsTruthy q.q then tsMatch (q.q.getD "") f else true) &&
    (if jsTruthy q.category then f.categorySlug == q.category.getD "" else true) &&
    (if jsTruthy q.state then sqlEqOpt f.state (some (jsToUpper (q.state.getD ""))) else true) &&
    (if jsTruthy q.city then sqlIlikeContains f.city (q.city.getD "") else true) &&
    (if jsTruthyNum q.lat && jsTruthyNum q.lng then
      match f.location with
      | none => false
      | some loc => stDWithin loc (center q) q.radius
    else true)

/-- Which ORDER BY clause the handler appends. -/
inductive OrderClause where
  | distance
  | rank
  | name
deriving DecidableEq

/-- The ORDER BY selection of the handler, including its JS truthiness
tests. -/
def orderClause (q : FacilityQuery) : OrderClause :=
  if jsTruthyNum q.lat && jsTruthyNum q.lng then OrderClause.distance
  else if jsTruthy q.q then OrderClause.rank
  else OrderClause.name

/-- The `ST_Distance` sort key of a row (rows reaching the distance sort
all carry a location, the `none` default is immaterial). -/
def distKey (stDistance : Int × Int → Int × Int → Int) (q : FacilityQuery)
    (f : DbFacility) : Int :=
  match f.location with
  | some loc => stDistance loc (center q)
  | none => 0

/-- Execute the chosen ORDER BY over the matched rows.  `tsRank` embeds
`ts_rank(search_vector, plainto_tsquery($q))`. -/
def sortRows (stDistance : Int × Int → Int × Int → Int) (tsRank : String → DbFacility → Int)
    (q : FacilityQuery) (rows : List DbFacility) : List DbFacility :=
  match orderClause q with
  | OrderClause.distance =>
    List.insertionSort (fun a b => distKey stDistance q a ≤ distKey stDistance q b) rows
  | OrderClause.rank =>
    List.insertionSort (fun a b => tsRank (q.q.getD "") b ≤ tsRank (q.q.getD "") a) rows
  | OrderClause.name =>
    List.insertionSort (fun a b => strLe a.name b.name = true) rows

/-- The two SQL statements of the handler: the data query (filters,
ORDER BY, `LIMIT limit OFFSET (page-1)*limit`) and the count query
(same filters).  Returns the page of rows and the total count. -/
def runFacilityQuery (tsMatch : String → DbFacility → Bool)
    (tsRank : String → DbFacility → Int)
    (stDWithin : Int × Int → Int × Int → Int → Bool)
    (stDistance : Int × Int → Int × Int → Int)
    (db : List DbFacility) (q : FacilityQuery) : List DbFacility × Nat :=
  let matched := db.filter (rowMatches tsMatch stDWithin q)
  let sorted := sortRows stDistance tsRank q matched
  let offset := (q.page - 1) * q.limit
  ((sorted.drop offset.toNat).take q.limit.toNat, matched.length)

/-- The observable outcome of one request: HTTP status, how many SQL
statements were executed, and the JSON payload. -/
structure HttpOutcome where
  status : Nat
  dbQueries : Nat
  rows : List DbFacility
  total : Nat
deriving DecidableEq

/-- The `GET /api/facilities` handler: validation happens before any
database access; a `ZodError` is answered with 400 and no query runs. -/
def facilitiesHandler (tsMatch : String → DbFacility → Bool)
    (tsRank : String → DbFacility → Int)
    (stDWithin : Int × Int → Int × Int → Int → Bool)
    (stDistance : Int × Int → Int × Int → Int)
    (db : List DbFacility) (r : RawFacilityQuery) : HttpOutcome :=
  match parseFacilityQuery r with
  | none => { status := 400, dbQueries := 0, rows := [], total := 0 }
  | some q =>
    let res := runFacilityQuery tsMatch tsRank stDWithin stDistance db q
    { status := 200, dbQueries := 2, rows := res.1, total := res.2 }

/-- The `GET /api/facilities/:id` handler, as `(status, queries run)`:
`paramsSchema` requires a positive id before the lookup executes. -/
def facilityByIdHandler (db : List DbFacility) (rid : Int) : Nat × Nat :=
  if 0 < rid then
    match db.find? (fun f => (f.id : Int) == rid && f.isActive) with
    | some _ => (200, 1)
    | none => (404, 1)
  else (400, 0)

/-! ### Helper lemmas about the ASCII case mapping and the state table -/

/-- `Char.ofNat` evaluates to its argument below the surrogate range. -/
theorem toNat_ofNat_valid (n : Nat) (h : n < 55296) : (Char.ofNat n).toNat = n := by
  have hv : n.isValidChar := Or.inl h
  simp [Char.ofNat, hv, Char.ofNatAux, Char.toNat, UInt32.toNat]

/-- Uppercasing a character never yields a lowercase ASCII letter. -/
theorem isLowerAlpha_jsUpperChar (c : Char) : isLowerAlpha (jsUpperChar c) = false := by
  unfold jsUpperChar
  by_cases h : isLowerAlpha c = true
  · rw [if_pos h]
    unfold isLowerAlpha at h ⊢
    rw [decide_eq_true_iff] at h
    have ht : (Char.ofNat (c.toNat - 32)).toNat = c.toNat - 32 :=
      toNat_ofNat_valid _ (by omega)
    rw [decide_eq_false_iff_not, ht]
    omega
  · rw [if_neg h]
    exact Bool.not_eq_true _ ▸ Bool.of_not_eq_true h

/-- Uppercasing fixes a character that is already an uppercase letter. -/
theorem jsUpperChar_of_upper (c : Char) (h : isUpperAlpha c = true) : jsUpperChar c = c := by
  unfold jsUpperChar
  rw [if_neg]
  unfold isUpperAlpha at h
  unfold isLowerAlpha
  rw [decide_eq_true_iff] at h
  simp only [decide_eq_true_eq]
  omega

/-- Every character of an uppercased string is non-lowercase. -/
theorem mem_jsToUpper_not_lower (x : String) :
    ∀ c ∈ (jsToUpper x).data, isLowerAlpha c = false := by
  intro c hc
  unfold jsToUpper at hc
  simp only [List.mem_map] at hc
  obtain ⟨d, _, rfl⟩ := hc
  exact isLowerAlpha_jsUpperChar d

/-- Uppercasing fixes a trimmed 2-letter uppercase code. -/
theorem jsToUpper_of_twoUpper (t : String) (h : isTwoUpperCode t = true) :
    jsToUpper t = t := by
  unfold isTwoUpperCode at h
  unfold jsToUpper
  cases t with
  | mk l =>
    match l, h with
    | [a, b], h =>
      simp only [Bool.and_eq_true] at h
      simp [jsUpperChar_of_upper a h.1, jsUpperChar_of_upper b h.2]

/-- What a successful `stateMap` lookup tells us: the key is a full
name (never a 2-letter code) and the value is a 2-letter uppercase
code. -/
theorem stateMapLookup_facts (u code : String) (h : stateMapLookup u = some code) :
    isTwoUpperCode u = false ∧ code.length = 2 ∧ ∀ c ∈ code.data, isLowerAlpha c = false := by
  unfold stateMapLookup at h
  obtain ⟨p, hp, hcode⟩ := Option.map_eq_some'.mp h
  have hmem := List.mem_of_find?_eq_some hp
  have heq : p.1 = u := by
    have := List.find?_some hp
    simpa using this
  have hall : ∀ p ∈ stateMap,
      isTwoUpperCode p.1 = false ∧ p.2.length = 2 ∧
        ∀ c ∈ p.2.data, isLowerAlpha c = false := by decide
  obtain ⟨h1, h2, h3⟩ := hall p hmem
  exact ⟨heq ▸ h1, hcode ▸ h2, hcode ▸ h3⟩

/-- A nonempty string is JS-truthy. -/
theorem jsTruthy_of_ne (s : String) (h : s ≠ "") : jsTruthy (some s) = true := by
  simp [jsTruthy, h]

/-- Claim C7 is a statement about `normalizeState (some s)`; empty input
maps through the falsy guard. -/
theorem normalizeState_of_empty : normalizeState (some "") = none := by decide

/-- Range of `normalizeState`: null, or at most two characters none of
which is a lowercase ASCII letter. -/
theorem normalizeState_none_or_short (s : Option String) :
    normalizeState s = none ∨
      ∃ t, normalizeState s = some t ∧ t.length ≤ 2 ∧
        ∀ c ∈ t.data, isLowerAlpha c = false := by
  unfold normalizeState
  by_cases hT : jsTruthy s = true
  · rw [hT]
    simp only [Bool.not_true, Bool.false_eq_true, if_false]
    right
    by_cases h2 : isTwoUpperCode (jsToUpper (jsTrim (s.getD ""))) = true
    · refine ⟨_, by rw [if_pos h2], ?_, mem_jsToUpper_not_lower _⟩
      unfold isTwoUpperCode at h2
      show (jsToUpper (jsTrim (s.getD ""))).data.length ≤ 2
      generalize (jsToUpper (jsTrim (s.getD ""))).data = l at h2 ⊢
      match l, h2 with
      | [a, b], _ => exact le_refl 2
    · rw [if_neg h2]
      cases hL : stateMapLookup (jsToUpper (jsTrim (s.getD ""))) with
      | some code =>
        obtain ⟨_, hlen, hlow⟩ := stateMapLookup_facts _ _ hL
        exact ⟨code, rfl, le_of_eq hlen, hlow⟩
      | none =>
        refine ⟨_, rfl, ?_, ?_⟩
        · show (List.take 2 (jsToUpper (jsTrim (s.getD ""))).data).length ≤ 2
          exact List.length_take_le 2 _
        · intro c hc
          exact mem_jsToUpper_not_lower _ c (List.mem_of_mem_take hc)
  · rw [Bool.not_eq_true] at hT
    rw [hT]
    simp

/-- For truthy input, `normalizeState` is its trim/uppercase branch. -/
theorem normalizeState_eq_branch (s : String) (hs : s ≠ "") :
    normalizeState (some s) =
      (if isTwoUpperCode (jsToUpper (jsTrim s)) then some (jsToUpper (jsTrim s))
       else
        match stateMapLookup (jsToUpper (jsTrim s)) with
        | some code => some code
        | none => some ⟨(jsToUpper (jsTrim s)).data.take 2⟩) := by
  unfold normalizeState
  rw [jsTruthy_of_ne s hs]
  simp

/-- Claim C7: `normalizeState` maps a recognized full US state name
(upper-cased case-insensitively) to its 2-letter postal code, returns an
input whose trimmed form is two uppercase letters unchanged after
trimming, falls back to the first two characters of the trimmed
uppercased input when the name is unrecognized, and returns null for
empty or missing input. -/
theorem claim7_normalizeState_spec :
    (∀ s code, stateMapLookup (jsToUpper (jsTrim s)) = some code →
      normalizeState (some s) = some code) ∧
    (∀ s, isTwoUpperCode (jsTrim s) = true → normalizeState (some s) = some (jsTrim s)) ∧
    (∀ s, s ≠ "" → isTwoUpperCode (jsToUpper (jsTrim s)) = false →
      stateMapLookup (jsToUpper (jsTrim s)) = none →
      normalizeState (some s) = some ⟨(jsToUpper (jsTrim s)).data.take 2⟩) ∧
    normalizeState none = none ∧ normalizeState (some "") = none := by
  refine ⟨?_, ?_, ?_, rfl, by decide⟩
  · intro s code h
    have hs : s ≠ "" := by
      rintro rfl
      rw [(by decide : stateMapLookup (jsToUpper (jsTrim "")) = none)] at h
      exact Option.noConfusion h
    rw [normalizeState_eq_branch s hs, if_neg, h]
    rw [(stateMapLookup_facts _ _ h).1]
    exact Bool.false_ne_true
  · intro s h
    have hs : s ≠ "" := by
      rintro rfl
      rw [(by decide : isTwoUpperCode (jsTrim "") = false)] at h
      exact Bool.false_ne_true h
    have hu := jsToUpper_of_twoUpper _ h
    rw [normalizeState_eq_branch s hs, hu, if_pos h]
  · intro s hs h1 h2
    rw [normalizeState_eq_branch s hs, if_neg, h2]
    rw [h1]
    exact Bool.false_ne_true

/-- Witness for C7 at the spec's own data points. -/
theorem claim7_normalizeState_spec_points :
    normalizeState (some "California") = some "CA" ∧
    normalizeState (some " TX ") = some "TX" ∧
    normalizeState (some "Ontario") = some "ON" ∧
    normalizeState none = none :=
  ⟨claim7_normalizeState_spec.1 "California" "CA" (by decide),
   (claim7_normalizeState_spec.2.1 " TX " (by decide)).trans (by decide),
   (claim7_normalizeState_spec.2.2.1 "Ontario" (by decide) (by decide) (by decide)).trans
     (by decide),
   claim7_normalizeState_spec.2.2.2.1⟩

/-- Claim C10: the Excel and Commtrex copies of `normalizeState` are
identical, every output is null or a string of at most two characters
containing no lowercase ASCII letter, and so is every normalized
record's state field. -/
theorem claim10_normalizeState_shape :
    commtrexNormalizeState = normalizeState ∧
    (∀ s, normalizeState s = none ∨
      ∃ t, normalizeState s = some t ∧ t.length ≤ 2 ∧
        ∀ c ∈ t.data, isLowerAlpha c = false) ∧
    (∀ row : RawRow, (normalizeRecord row).state = none ∨
      ∃ t, (normalizeRecord row).state = some t ∧ t.length ≤ 2 ∧
        ∀ c ∈ t.data, isLowerAlpha c = false) :=
  ⟨rfl, normalizeState_none_or_short, fun row => normalizeState_none_or_short row.state⟩

/-! ### C8 — `normalizeWebsite` -/

/-- Modelled from the spec: a website value "carries a scheme" when a
nonempty alphabetic scheme name followed by `://` leads the string. -/
def specHasScheme (s : String) : Bool :=
  let alpha := s.data.takeWhile (fun c => isLowerAlpha c || isUpperAlpha c)
  !alpha.isEmpty && listLeads [':', '/', '/'] (s.data.drop alpha.length)

/-- Claim C8 as stated is false: `"ftp://example.com"` already carries a
scheme, yet `normalizeWebsite` does not return it unchanged — it tests
only for the literal prefix `http` and prepends `https://`. -/
theorem claim8_scheme_counterexample :
    specHasScheme "ftp://example.com" = true ∧
    normalizeWebsite (some "ftp://example.com") = some "https://ftp://example.com" := by
  decide

/-- Claim C8 (amended): `https://` is prefixed exactly onto the nonempty
trimmed values that do not start with the literal `http`; values
starting with `http` are returned unchanged after trimming; empty or
missing input yields null; in particular `"example.com"` becomes
`"https://example.com"`. -/
theorem claim8_normalizeWebsite_spec (s : String) :
    (jsTrim s ≠ "" → jsStartsWith (jsTrim s) "http" = false →
      normalizeWebsite (some s) = some ("https://" ++ jsTrim s)) ∧
    (jsStartsWith (jsTrim s) "http" = true →
      normalizeWebsite (some s) = some (jsTrim s)) ∧
    normalizeWebsite none = none ∧ normalizeWebsite (some "") = none ∧
    normalizeWebsite (some "example.com") = some "https://example.com" := by
  have htrim : s = "" → jsTrim s = "" := by rintro rfl; decide
  refine ⟨?_, ?_, rfl, by decide, by decide⟩
  · intro ht hns
    have hs : s ≠ "" := fun he => ht (htrim he)
    unfold normalizeWebsite
    rw [jsTruthy_of_ne s hs]
    simp only [Option.getD_some, Bool.not_true, Bool.false_eq_true, if_false]
    rw [if_pos (by simpa [hns, bne_iff_ne] using ht)]
  · intro hsw
    have hs : s ≠ "" := by
      rintro rfl
      rw [(by decide : jsStartsWith (jsTrim "") "http" = false)] at hsw
      exact Bool.false_ne_true hsw
    unfold normalizeWebsite
    rw [jsTruthy_of_ne s hs]
    simp only [Option.getD_some, Bool.not_true, Bool.false_eq_true, if_false]
    rw [if_neg (by simp [hsw])]

/-- Witness for the amended C8 on both branches. -/
theorem claim8_normalizeWebsite_points :
    normalizeWebsite (some "example.com") = some "https://example.com" ∧
    normalizeWebsite (some " https://a.example ") = some "https://a.example" :=
  ⟨((claim8_normalizeWebsite_spec "example.com").1 (by decide) (by decide)).trans (by decide),
   ((claim8_normalizeWebsite_spec " https://a.example ").2.1 (by decide)).trans (by decide)⟩

/-! ### C1 — re-import of the same Excel file -/

/-- Database holding only the transloading category. -/
def c1db : Db := { categories := [(7, "transloading")], facilities := [] }

/-- A parsed row carrying a name and a state but no city (a column an
Excel sheet may simply lack). -/
def c1rec : NormalizedRecord := { name := some "Acme Transload", state := some "TX" }

/-- The same row with a city present. -/
def c1recCity : NormalizedRecord :=
  { name := some "Acme Transload", city := some "Houston", state := some "TX" }

/-- Claim C1 fails on the code: re-importing a file whose record lacks a
city inserts the row again — the duplicate SELECT compares
`city = NULL`, which in SQL never matches — while with a non-null city
the re-import is skipped as the claim describes. -/
theorem claim1_reimport_inserts_again :
    (importFile noFailOracle c1db "a.xlsx" "transloading" false [c1rec]).2 =
      Except.ok (1, 0) ∧
    (importFile noFailOracle
        (importFile noFailOracle c1db "a.xlsx" "transloading" false [c1rec]).1
        "a.xlsx" "transloading" false [c1rec]).2 = Except.ok (1, 0) ∧
    (importFile noFailOracle
        (importFile noFailOracle c1db "a.xlsx" "transloading" false [c1recCity]).1
        "a.xlsx" "transloading" false [c1recCity]).2 = Except.ok (0, 1) := by
  decide

/-! ### C2 — the duplicate checks of the two import paths -/

/-- Modelled from the spec: the claimed duplicate criterion — an
existing facility with the same name, city, state and category. -/
def specClaimedDup (facs : List Facility) (name city state : Option String)
    (categoryId : Nat) : Bool :=
  facs.any fun f =>
    sqlEqOpt (some f.name) name && sqlEqOpt f.city city &&
      sqlEqOpt f.state state && f.categoryId == categoryId

/-- An existing transloading facility imported from Excel. -/
def c2fac : Facility :=
  { name := "Gulf Transload", categoryId := 7, city := some "Houston",
    state := some "TX", source := "excel_import" }

/-- The same facility inserted from a Commtrex run. -/
def c2facCom : Facility :=
  { name := "Gulf Transload", categoryId := 7, city := some "Houston",
    state := some "TX", source := "commtrex" }

/-- A Commtrex CSV record for the same facility. -/
def c2rec : CommtrexRecord :=
  { name := some "Gulf Transload", city := some "Houston", state := some "TX" }

/-- An Excel record for the same facility. -/
def c2recExcel : NormalizedRecord :=
  { name := some "Gulf Transload", city := some "Houston", state := some "TX" }

/-- Claim C2 fails on the Commtrex path: a facility with the same
(name, city, state, category) exists and force is unset, yet the record
is inserted — that path's duplicate SELECT keys on `source='commtrex'`,
not on the category. -/
theorem claim2_commtrex_dup_counterexample :
    specClaimedDup [c2fac] c2rec.name c2rec.city c2rec.state 7 = true ∧
    commtrexStep noFailOracle 7 false ⟨[c2fac], 0, 0⟩ c2rec =
      Except.ok ⟨[c2fac, mkCommtrexFacility c2rec 7], 1, 0⟩ := by
  decide

/-- Claim C2 (amended): before every insert both import paths run a
duplicate SELECT over the current facilities — by (name, city, state,
category id) on the Excel path and by (name, city, state,
source='commtrex') on the Commtrex path, under SQL equality — and when
it matches with the force option unset the record is skipped and
nothing is inserted. -/
theorem claim2_dup_check_skips (oracle : InsertOracle) (categoryId : Nat) (fileName : String)
    (st : LoopSt) (rec : NormalizedRecord) (crec : CommtrexRecord) :
    (jsTruthy rec.name = true → jsTruthy rec.state = true →
      excelDupExists st.facs rec categoryId = true →
      excelStep oracle categoryId false fileName st rec =
        Except.ok { st with skipped := st.skipped + 1 }) ∧
    (commtrexDupExists st.facs crec = true →
      commtrexStep oracle categoryId false st crec =
        Except.ok { st with skipped := st.skipped + 1 }) := by
  constructor
  · intro h1 h2 h3
    unfold excelStep
    rw [h1, h2, h3]
    simp
  · intro h
    unfold commtrexStep
    rw [h]
    simp

/-- Witness for the amended C2 on both import paths. -/
theorem claim2_dup_check_skips_example :
    excelStep noFailOracle 7 false "a.xlsx" ⟨[c2fac], 0, 0⟩ c2recExcel =
      Except.ok ⟨[c2fac], 0, 0 + 1⟩ ∧
    commtrexStep noFailOracle 7 false ⟨[c2facCom], 0, 0⟩ c2rec =
      Except.ok ⟨[c2facCom], 0, 0 + 1⟩ :=
  ⟨(claim2_dup_check_skips noFailOracle 7 "a.xlsx" ⟨[c2fac], 0, 0⟩ c2recExcel c2rec).1
      (by decide) (by decide) (by decide),
   (claim2_dup_check_skips noFailOracle 7 "a.xlsx" ⟨[c2facCom], 0, 0⟩ c2recExcel c2rec).2
      (by decide)⟩

/-! ### C5 — transactional atomicity of `importFile` -/

/-- Claim C5: `importFile` is all-or-nothing per file: whenever the run
ends in an exception, the persisted database is exactly the original one
(every insert of the file is rolled back) and the error is rethrown as
the second component. -/
theorem claim5_importFile_atomic (oracle : InsertOracle) (db : Db)
    (fileName categorySlug : String) (force : Bool) (records : List NormalizedRecord)
    (e : ImpError)
    (h : (importFile oracle db fileName categorySlug force records).2 = Except.error e) :
    (importFile oracle db fileName categorySlug force records).1 = db := by
  unfold importFile at h ⊢
  cases hb : importFileBody oracle db fileName categorySlug force records with
  | ok st => rw [hb] at h; simp at h
  | error e2 => rfl

/-- An oracle whose second insert statement raises. -/
def c5oracle : InsertOracle := fun k => k == 1

/-- Scenario for the C5 witness. -/
def c5db : Db := { categories := [(5, "team-tracks")], facilities := [] }

/-- First row of the two-row file. -/
def c5recA : NormalizedRecord :=
  { name := some "A Track", city := some "Ames", state := some "IA" }

/-- Second row of the two-row file. -/
def c5recB : NormalizedRecord :=
  { name := some "B Track", city := some "Boone", state := some "IA" }

/-- Witness for C5: the second insert of a two-row file raises after the
first row was already inserted in the transaction; nothing persists and
the error is rethrown. -/
theorem claim5_importFile_atomic_example :
    (importFile c5oracle c5db "t.xlsx" "team-tracks" false [c5recA, c5recB]).2 =
      Except.error (ImpError.dbError 1) ∧
    (importFile c5oracle c5db "t.xlsx" "team-tracks" false [c5recA, c5recB]).1 = c5db :=
  ⟨by decide,
   claim5_importFile_atomic c5oracle c5db "t.xlsx" "team-tracks" false [c5recA, c5recB]
     (ImpError.dbError 1) (by decide)⟩

/-! ### C9 — geocoding failures stay local to one record -/

/-- A facility whose network call fails is never written back by any
iteration of the batch loop: it survives the fold unchanged. -/
theorem mem_foldl_processStep (oracle : GeoOracle) (f : GeoFacility)
    (hg : geocodeNominatim oracle f.id = none) :
    ∀ (targets : List GeoFacility) (acc : List GeoFacility × Nat × Nat),
      f ∈ acc.1 → f ∈ (targets.foldl (processStep oracle) acc).1 := by
  intro targets
  induction targets with
  | nil => intro acc h; exact h
  | cons g gs ih =>
    intro acc h
    apply ih
    unfold processStep
    cases hgo : geocodeNominatim oracle g.id with
    | none => exact h
    | some r =>
      have hne : f.id ≠ g.id := by
        intro he
        rw [← he, hg] at hgo
        exact Option.noConfusion hgo
      exact List.mem_map.mpr ⟨f, h, by simp [hne]⟩

/-- Claim C9: a network failure while geocoding one facility is caught
and treated as "no result": the facility's row is left untouched (its
coordinates stay unset), and the batch loop — which is a total function,
so no exception escapes it — still processes every selected facility. -/
theorem claim9_geocode_failure_isolated (oracle : GeoOracle) (db : List GeoFacility)
    (limit : Nat) (f : GeoFacility) (msg : String) (hmem : f ∈ db)
    (hloc : f.location = none) (herr : oracle f.id = NetResult.netError msg) :
    f ∈ (processAll oracle db limit).1 ∧
    (processAll oracle db limit).2.processed = (getUngeocoded db limit).length := by
  have hg : geocodeNominatim oracle f.id = none := by
    unfold geocodeNominatim fetchNominatim
    rw [herr]
  exact ⟨mem_foldl_processStep oracle f hg (getUngeocoded db limit) (db, 0, 0) hmem, rfl⟩

/-- Network oracle that fails for facility 1 and resolves facility 2. -/
def c9oracle : GeoOracle := fun fid =>
  if fid == 1 then NetResult.netError "ECONNRESET" else NetResult.found 30 (-95)

/-- First ungeocoded facility (its network call fails). -/
def c9f1 : GeoFacility :=
  { id := 1, name := "Alpha Yard", address := some "1 Rail Rd", city := some "Ames",
    state := some "IA" }

/-- Second ungeocoded facility (its network call resolves). -/
def c9f2 : GeoFacility :=
  { id := 2, name := "Beta Yard", address := some "2 Rail Rd", city := some "Boone",
    state := some "IA" }

/-- Witness for C9: with a failing first record the batch still
processes both records and leaves the first one unchanged. -/
theorem claim9_geocode_failure_isolated_example :
    c9f1 ∈ (processAll c9oracle [c9f1, c9f2] 1000).1 ∧
    (processAll c9oracle [c9f1, c9f2] 1000).2.processed =
      (getUngeocoded [c9f1, c9f2] 1000).length :=
  claim9_geocode_failure_isolated c9oracle [c9f1, c9f2] 1000 c9f1 "ECONNRESET"
    (by decide) (by decide) (by decide)

/-! ### Backend claims — shared material -/

/-- A concrete text-search matcher (used to instantiate witnesses). -/
def tsMatchAll : String → DbFacility → Bool := fun _ _ => true

/-- A concrete rank function. -/
def tsRankZero : String → DbFacility → Int := fun _ _ => 0

/-- A concrete radius predicate. -/
def stDWithinAlways : Int × Int → Int × Int → Int → Bool := fun _ _ _ => true

/-- A concrete distance function (taxicab). -/
def stDistanceL1 : Int × Int → Int × Int → Int := fun a b =>
  ((a.1 - b.1).natAbs : Int) + ((a.2 - b.2).natAbs : Int)

/-- What passing validation guarantees about the pagination numbers. -/
theorem parseFacilityQuery_bounds (r : RawFacilityQuery) (q : FacilityQuery)
    (h : parseFacilityQuery r = some q) :
    1 ≤ q.page ∧ 1 ≤ q.limit ∧ q.limit ≤ 100 := by
  unfold parseFacilityQuery at h
  split at h
  next hcond =>
    simp only [Bool.and_eq_true, decide_eq_true_eq] at hcond
    obtain ⟨⟨⟨_, hrad⟩, hpage⟩, hlim⟩ := hcond
    cases h
    exact ⟨hpage, hlim.1, hlim.2⟩
  next => exact Option.noConfusion h

/-- Shape of one result page: its length is bounded by the limit, and a
nonempty page forces the offset below the total row count. -/
theorem paged_bounds (l : List DbFacility) (page limit : Int) (hp : 1 ≤ page)
    (hl : 1 ≤ limit) :
    ((((l.drop ((page - 1) * limit).toNat).take limit.toNat).length : Int) ≤ limit) ∧
    ((l.drop ((page - 1) * limit).toNat).take limit.toNat ≠ [] →
      page * limit ≤ (l.length : Int) + limit) := by
  constructor
  · have h1 : ((l.drop ((page - 1) * limit).toNat).take limit.toNat).length ≤ limit.toNat :=
      List.length_take_le _ _
    omega
  · intro hne
    have hoff : l.drop ((page - 1) * limit).toNat ≠ [] := by
      intro hd
      rw [hd] at hne
      simp at hne
    have hlt : ((page - 1) * limit).toNat < l.length := by
      by_contra hge
      push_neg at hge
      exact hoff (List.drop_eq_nil_of_le hge)
    have hnn : 0 ≤ (page - 1) * limit := mul_nonneg (by omega) (by omega)
    have hcast : (page - 1) * limit < (l.length : Int) := by
      calc (page - 1) * limit = (((page - 1) * limit).toNat : Int) :=
            (Int.toNat_of_nonneg hnn).symm
        _ < (l.length : Int) := by exact_mod_cast hlt
    have heq : page * limit = (page - 1) * limit + limit := by ring
    rw [heq]
    linarith

/-- Sorting does not change the number of rows. -/
theorem length_sortRows (stDistance : Int × Int → Int × Int → Int)
    (tsRank : String → DbFacility → Int) (q : FacilityQuery) (rows : List DbFacility) :
    (sortRows stDistance tsRank q rows).length = rows.length := by
  unfold sortRows
  split <;> exact List.length_insertionSort _ _

/-! ### C4 — pagination bounds -/

/-- The raw query `?page=2` (all other parameters defaulted). -/
def c4raw : RawFacilityQuery := { page := some 2 }

/-- Its parse: page 2, limit 20. -/
def c4q : FacilityQuery := { page := 2 }

/-- Claim C4 fails as stated: page=2, limit=20 passes validation, but
over an empty result set `page * limit = 40` exceeds
`total + limit = 20`; the handler still answers with an empty page. -/
theorem claim4_pagination_counterexample :
    parseFacilityQuery c4raw = some c4q ∧
    (runFacilityQuery tsMatchAll tsRankZero stDWithinAlways stDistanceL1 [] c4q).2 = 0 ∧
    (runFacilityQuery tsMatchAll tsRankZero stDWithinAlways stDistanceL1 [] c4q).1 = [] ∧
    ¬(c4q.page * c4q.limit ≤ (0 : Int) + c4q.limit) := by
  decide

/-- Claim C4 (amended): for every validated query the returned item
count is at most `limit`, and `page * limit ≤ total + limit` whenever
the returned page is nonempty (a page beyond the end returns an empty
data array instead). -/
theorem claim4_pagination_bounds (tsMatch : String → DbFacility → Bool)
    (tsRank : String → DbFacility → Int) (stDWithin : Int × Int → Int × Int → Int → Bool)
    (stDistance : Int × Int → Int × Int → Int) (db : List DbFacility)
    (r : RawFacilityQuery) (q : FacilityQuery) (h : parseFacilityQuery r = some q) :
    (((runFacilityQuery tsMatch tsRank stDWithin stDistance db q).1.length : Int) ≤ q.limit) ∧
    ((runFacilityQuery tsMatch tsRank stDWithin stDistance db q).1 ≠ [] →
      q.page * q.limit ≤
        ((runFacilityQuery tsMatch tsRank stDWithin stDistance db q).2 : Int) + q.limit) := by
  obtain ⟨hp, hl1, _⟩ := parseFacilityQuery_bounds r q h
  have hgen := paged_bounds
    (sortRows stDistance tsRank q (db.filter (rowMatches tsMatch stDWithin q)))
    q.page q.limit hp hl1
  have hlen := length_sortRows stDistance tsRank q (db.filter (rowMatches tsMatch stDWithin q))
  refine ⟨hgen.1, fun hne => ?_⟩
  have := hgen.2 hne
  rw [hlen] at this
  exact this

/-- Witness for the amended C4 at a nonempty page. -/
def c4fac : DbFacility := { id := 3, name := "Gamma Yard" }

/-- Witness theorem for C4: default parameters over a one-row table. -/
theorem claim4_pagination_bounds_example :
    (((runFacilityQuery tsMatchAll tsRankZero stDWithinAlways stDistanceL1 [c4fac]
        { }).1.length : Int) ≤ (20 : Int)) ∧
    ((runFacilityQuery tsMatchAll tsRankZero stDWithinAlways stDistanceL1 [c4fac] { }).1 ≠ [] →
      (1 : Int) * 20 ≤
        ((runFacilityQuery tsMatchAll tsRankZero stDWithinAlways stDistanceL1 [c4fac]
          { }).2 : Int) + 20) :=
  claim4_pagination_bounds tsMatchAll tsRankZero stDWithinAlways stDistanceL1 [c4fac]
    { } { } (by decide)

/-! ### C3 — ordering policy -/

/-- Restriction of a page (`LIMIT`/`OFFSET`) keeps any pairwise order. -/
theorem pairwise_paged {R : DbFacility → DbFacility → Prop} (l : List DbFacility) (n m : Nat)
    (h : l.Pairwise R) : ((l.drop n).take m).Pairwise R :=
  List.Pairwise.sublist ((List.take_sublist m _).trans (List.drop_sublist n l)) h

/-- A facility at taxicab distance 10 from the counterexample center. -/
def c3fa : DbFacility :=
  { id := 1, name := "Alpha Yard", categorySlug := "transloading", location := some (10, -74) }

/-- A facility at taxicab distance 1 from the counterexample center. -/
def c3fb : DbFacility :=
  { id := 2, name := "Beta Yard", categorySlug := "transloading", location := some (1, -74) }

/-- The raw query `?lat=0&lng=-74`: a valid geographic center on the
equator. -/
def c3raw : RawFacilityQuery := { lat := some 0, lng := some (-74) }

/-- Its parse. -/
def c3q : FacilityQuery := { lat := some 0, lng := some (-74) }

/-- Claim C3 fails as stated: the center (0, -74) is given and valid,
yet the handler orders by name — the JS truthiness test
`query.lat && query.lng` treats the zero coordinate as absent — and the
returned rows are not in ascending distance order. -/
theorem claim3_ordering_counterexample :
    parseFacilityQuery c3raw = some c3q ∧
    orderClause c3q = OrderClause.name ∧
    (runFacilityQuery tsMatchAll tsRankZero stDWithinAlways stDistanceL1
      [c3fa, c3fb] c3q).1 = [c3fa, c3fb] ∧
    stDistanceL1 (c3fb.location.getD (0, 0)) (center c3q) <
      stDistanceL1 (c3fa.location.getD (0, 0)) (center c3q) := by
  decide

/-- Claim C3 (amended): when lat and lng are both given and nonzero the
rows are ordered by distance to the center ascending; otherwise, when a
nonempty text query is given, by rank descending; otherwise by name
ascending. -/
theorem claim3_ordering_policy (tsMatch : String → DbFacility → Bool)
    (tsRank : String → DbFacility → Int) (stDWithin : Int × Int → Int × Int → Int → Bool)
    (stDistance : Int × Int → Int × Int → Int) (db : List DbFacility) (q : FacilityQuery) :
    ((jsTruthyNum q.lat && jsTruthyNum q.lng) = true →
      (runFacilityQuery tsMatch tsRank stDWithin stDistance db q).1.Pairwise
        (fun a b => distKey stDistance q a ≤ distKey stDistance q b)) ∧
    ((jsTruthyNum q.lat && jsTruthyNum q.lng) = false → jsTruthy q.q = true →
      (runFacilityQuery tsMatch tsRank stDWithin stDistance db q).1.Pairwise
        (fun a b => tsRank (q.q.getD "") b ≤ tsRank (q.q.getD "") a)) ∧
    ((jsTruthyNum q.lat && jsTruthyNum q.lng) = false → jsTruthy q.q = false →
      (runFacilityQuery tsMatch tsRank stDWithin stDistance db q).1.Pairwise
        (fun a b => strLe a.name b.name = true)) := by
  refine ⟨?_, ?_, ?_⟩
  · intro hgeo
    have hoc : orderClause q = OrderClause.distance := by simp [orderClause, hgeo]
    have hs : (sortRows stDistance tsRank q
        (db.filter (rowMatches tsMatch stDWithin q))).Pairwise
        (fun a b => distKey stDistance q a ≤ distKey stDistance q b) := by
      unfold sortRows
      rw [hoc]
      haveI : IsTotal DbFacility (fun a b => distKey stDistance q a ≤ distKey stDistance q b) :=
        ⟨fun a b => le_total _ _⟩
      haveI : IsTrans DbFacility (fun a b => distKey stDistance q a ≤ distKey stDistance q b) :=
        ⟨fun _ _ _ => le_trans⟩
      exact List.sorted_insertionSort _ _
    exact pairwise_paged _ _ _ hs
  · intro hgeo hq
    have hoc : orderClause q = OrderClause.rank := by simp [orderClause, hgeo, hq]
    have hs : (sortRows stDistance tsRank q
        (db.filter (rowMatches tsMatch stDWithin q))).Pairwise
        (fun a b => tsRank (q.q.getD "") b ≤ tsRank (q.q.getD "") a) := by
      unfold sortRows
      rw [hoc]
      haveI : IsTotal DbFacility
          (fun a b => tsRank (q.q.getD "") b ≤ tsRank (q.q.getD "") a) :=
        ⟨fun a b => le_total _ _⟩
      haveI : IsTrans DbFacility
          (fun a b => tsRank (q.q.getD "") b ≤ tsRank (q.q.getD "") a) :=
        ⟨fun _ _ _ hab hbc => le_trans hbc hab⟩
      exact List.sorted_insertionSort _ _
    exact pairwise_paged _ _ _ hs
  · intro hgeo hq
    have hoc : orderClause q = OrderClause.name := by simp [orderClause, hgeo, hq]
    have hs : (sortRows stDistance tsRank q
        (db.filter (rowMatches tsMatch stDWithin q))).Pairwise
        (fun a b => strLe a.name b.name = true) := by
      unfold sortRows
      rw [hoc]
      haveI : IsTotal DbFacility (fun a b => strLe a.name b.name = true) :=
        ⟨fun a b => listLexLe_total a.name.data b.name.data⟩
      haveI : IsTrans DbFacility (fun a b => strLe a.name b.name = true) :=
        ⟨fun a b c => listLexLe_trans a.name.data b.name.data c.name.data⟩
      exact List.sorted_insertionSort _ _
    exact pairwise_paged _ _ _ hs

/-- A nonzero valid geographic center for the C3 witness. -/
def c3qGeo : FacilityQuery := { lat := some 34, lng := some (-74) }

/-- Witness for the amended C3 on the distance branch. -/
theorem claim3_ordering_policy_example :
    (runFacilityQuery tsMatchAll tsRankZero stDWithinAlways stDistanceL1
      [c3fa, c3fb] c3qGeo).1.Pairwise
      (fun a b => distKey stDistanceL1 c3qGeo a ≤ distKey stDistanceL1 c3qGeo b) :=
  (claim3_ordering_policy tsMatchAll tsRankZero stDWithinAlways stDistanceL1
    [c3fa, c3fb] c3qGeo).1 (by decide)

/-! ### C6 — validation failures answer 400 before any query -/

/-- The invalid-parameter conditions enumerated by the claim. -/
def invalidFacilityRaw (r : RawFacilityQuery) : Prop :=
  (∃ v, r.radius = some v ∧ (v < 1 ∨ 500 < v)) ∨
  (∃ v, r.lat = some v ∧ (v < -90 ∨ 90 < v)) ∨
  (∃ v, r.lng = some v ∧ (v < -180 ∨ 180 < v)) ∨
  (∃ v, r.page = some v ∧ v < 1) ∨
  (∃ v, r.limit = some v ∧ (v < 1 ∨ 100 < v)) ∨
  (∃ s, r.state = some s ∧ s.length ≠ 2)

/-- Each invalid condition makes the zod parse fail. -/
theorem parse_none_of_invalid (r : RawFacilityQuery) (h : invalidFacilityRaw r) :
    parseFacilityQuery r = none := by
  unfold parseFacilityQuery
  rcases h with ⟨v, hv, hr⟩ | ⟨v, hv, hr⟩ | ⟨v, hv, hr⟩ | ⟨v, hv, hr⟩ | ⟨v, hv, hr⟩ |
    ⟨s, hv, hr⟩
  · have hx : decide (1 ≤ (v : Int) ∧ v ≤ 500) = false := by
      simp only [decide_eq_false_iff_not]
      omega
    simp [hv, hx]
  · have hx : decide (-90 ≤ (v : Int) ∧ v ≤ 90) = false := by
      simp only [decide_eq_false_iff_not]
      omega
    simp [optInRange, hv, hx]
  · have hx : decide (-180 ≤ (v : Int) ∧ v ≤ 180) = false := by
      simp only [decide_eq_false_iff_not]
      omega
    simp [optInRange, hv, hx]
  · have hx : decide (1 ≤ (v : Int)) = false := by
      simp only [decide_eq_false_iff_not]
      omega
    simp [hv, hx]
  · have hx : decide (1 ≤ (v : Int) ∧ v ≤ 100) = false := by
      simp only [decide_eq_false_iff_not]
      omega
    simp [hv, hx]
  · have hx : stateLenOk (some s) = false := by
      simp [stateLenOk, hr]
    simp [hv, hx]

/-- Claim C6: any of the enumerated invalid parameters — radius outside
1–500, lat outside [-90, 90], lng outside [-180, 180], page below 1,
limit outside 1–100, a state that is not exactly 2 characters, or a
non-positive id — is answered with HTTP 400 and zero database queries. -/
theorem claim6_invalid_rejected (tsMatch : String → DbFacility → Bool)
    (tsRank : String → DbFacility → Int) (stDWithin : Int × Int → Int × Int → Int → Bool)
    (stDistance : Int × Int → Int × Int → Int) (db : List DbFacility)
    (r : RawFacilityQuery) (rid : Int) :
    (invalidFacilityRaw r →
      facilitiesHandler tsMatch tsRank stDWithin stDistance db r =
        { status := 400, dbQueries := 0, rows := [], total := 0 }) ∧
    (rid ≤ 0 → facilityByIdHandler db rid = (400, 0)) := by
  constructor
  · intro h
    unfold facilitiesHandler
    rw [parse_none_of_invalid r h]
  · intro h
    unfold facilityByIdHandler
    rw [if_neg (by omega)]

/-- The raw query `?radius=600`. -/
def c6raw : RawFacilityQuery := { radius := some 600 }

/-- Witness for C6: an oversized radius and the id 0 are both rejected
with 400 and no query. -/
theorem claim6_invalid_rejected_example :
    facilitiesHandler tsMatchAll tsRankZero stDWithinAlways stDistanceL1 [] c6raw =
      { status := 400, dbQueries := 0, rows := [], total := 0 } ∧
    facilityByIdHandler [] 0 = (400, 0) :=
  ⟨(claim6_invalid_rejected tsMatchAll tsRankZero stDWithinAlways stDistanceL1 [] c6raw 0).1
      (Or.inl ⟨600, rfl, Or.inr (by decide)⟩),
   (claim6_invalid_rejected tsMatchAll tsRankZero stDWithinAlways stDistanceL1 [] c6raw 0).2
      (by decide)⟩

end RailHub
